import Mathlib

/-!
Verification development for the Infinitus front-end scaffold.

The components of the repository are embedded as pure Lean functions producing an
`Html` markup tree.  Third-party components (`proqio-ui`, router `Link` and
`Outlet`, icons, `Suspense`) remain opaque nodes identified by their tag name;
the components owned by the repository are expanded to the markup their source returns.
-/

/-- A JavaScript class value as accepted by `clsx`: strings, numbers,
booleans, null/undefined, and (nested) arrays of class values. -/
inductive ClassValue where
  | str (s : String)
  | num (n : Int)
  | boolv (b : Bool)
  | null
  | arr (xs : List ClassValue)
deriving Repr

/-- Modelled from the spec: the third-party `clsx` (not part of this
repository) flattens its arguments, drops falsy ones (false, null/undefined,
0, the empty string), stringifies truthy numbers, and space-joins the
surviving class names.  `clsxToks` collects the tokens of one class value. -/
def ClassValue.clsxToks : ClassValue → List String
  | .str s => if s = "" then [] else [s]
  | .num n => if n = 0 then [] else [toString n]
  | .boolv _ => []
  | .null => []
  | .arr [] => []
  | .arr (v :: vs) => v.clsxToks ++ (ClassValue.arr vs).clsxToks
decreasing_by
  all_goals simp_wf
  all_goals omega

/-- Token list of a whole argument list, as `clsx` walks its arguments. -/
def clsxToksList (vs : List ClassValue) : List String :=
  (vs.map ClassValue.clsxToks).flatten

/-- Modelled from the spec: `clsx(...values)` — the space-joined truthy
class names of all arguments. -/
def clsx (vs : List ClassValue) : String :=
  String.intercalate " " (clsxToksList vs)

/-- Modelled from the spec: the Tailwind conflict group of a utility class,
for the third-party `tailwind-merge`.  Classes in the same group conflict;
classes in no group never conflict.  Only the groups exercised by this
class strings of this repository (plus representatives used in tests) are listed. -/
def twGroup (c : String) : Option String :=
  if c = "justify-end" ∨ c = "justify-center" ∨ c = "justify-start" ∨ c = "justify-between" then
    some "justify-content"
  else if c = "p-2" ∨ c = "p-4" ∨ c = "p-5" ∨ c = "p-6" then
    some "padding"
  else if c = "bg-white" ∨ c = "bg-slate-800" ∨ c = "bg-slate-100" ∨ c = "bg-indigo-600" ∨ c = "bg-card" then
    some "background-color"
  else
    none

/-- Does a class conflict with some later class of the same Tailwind group? -/
def conflictsLater (c : String) (rest : List String) : Bool :=
  match twGroup c with
  | none => false
  | some g => rest.any (fun d => twGroup d = some g)

/-- Modelled from the spec: `tailwind-merge` keeps each class unless a later
class of the same conflict group overrides it. -/
def twMergeList : List String → List String
  | [] => []
  | c :: rest =>
      if conflictsLater c rest then twMergeList rest else c :: twMergeList rest

/-- Splits a character list into space-separated words, dropping empty
tokens; `cur` holds the reversed characters of the word being read. -/
def classWordsAux : List Char → List Char → List String
  | [], cur => if cur.isEmpty then [] else [String.mk cur.reverse]
  | c :: cs, cur =>
      if c = ' ' then
        if cur.isEmpty then classWordsAux cs []
        else String.mk cur.reverse :: classWordsAux cs []
      else classWordsAux cs (c :: cur)

/-- The space-separated words of a class string. -/
def classWords (s : String) : List String := classWordsAux s.data []

/-- Modelled from the spec: the third-party `twMerge` on a space-joined
class string — resolve conflicts between its words, later classes winning. -/
def twMerge (s : String) : String :=
  String.intercalate " " (twMergeList (classWords s))

/-- `src/utils/cn.ts`: `const cn = (...values: ClassValue[]) => twMerge(clsx(...values));` -/
def cn (values : List ClassValue) : String :=
  twMerge (clsx values)

/-- A class value is falsy in the JavaScript sense used by `clsx`. -/
def ClassValue.Falsy : ClassValue → Prop
  | .str s => s = ""
  | .num n => n = 0
  | .boolv _ => True
  | .null => True
  | .arr _ => False

/-- Rendered markup: element/component nodes (tag, attributes, children)
and text nodes.  Third-party components keep their capitalized tag name. -/
inductive Html where
  | element (tag : String) (attrs : List (String × String)) (children : List Html)
  | text (s : String)
deriving Repr

/-- An optional string prop as a class value (`undefined` when absent). -/
def cvOpt : Option String → ClassValue
  | none => ClassValue.null
  | some s => ClassValue.str s

/-- Modelled from the spec: `getInitials` is imported from
`@/utils/get-initials`, whose implementation file is not present under
`src/`; the spec calls it a trivial initials computation.  We model it as
the concatenated uppercased first letters of the whitespace-separated words
of the name. -/
def getInitials (name : String) : String :=
  String.join ((classWords name).map (fun w => String.mk ((w.data.take 1).map Char.toUpper)))

/-!  Header primitives, from the app-header source (`src/components/layout/app-header`). -/

/-- `Header`: the root header bar.  `children`, `className` and the remaining
spread props are passed through; the class string is the `cn` merge of the
base classes with the `className` of the caller. -/
def Header (children : List Html) (className : Option String)
    (extra : List (String × String)) : Html :=
  Html.element "header"
    (("className",
        cn [ClassValue.str "flex h-14 items-center justify-between border-b border-slate-200 bg-white px-6 dark:border-slate-800 dark:bg-slate-950",
            cvOpt className]) :: extra)
    children

/-- `HeaderSection`: groups elements on one side of the header. -/
def HeaderSection (children : List Html) (className : Option String)
    (extra : List (String × String)) : Html :=
  Html.element "div"
    (("className", cn [ClassValue.str "flex items-center gap-3", cvOpt className]) :: extra)
    children

/-- `HeaderBrand`: the application name; `children` defaults to the text
`Infinitus` when the prop is omitted. -/
def HeaderBrand (children : Option (List Html)) (className : Option String)
    (extra : List (String × String)) : Html :=
  Html.element "span"
    (("className",
        cn [ClassValue.str "text-base font-semibold text-slate-900 dark:text-white",
            cvOpt className]) :: extra)
    (children.getD [Html.text "Infinitus"])

/-- `HeaderDivider`: a vertical separator, `aria-hidden`. -/
def HeaderDivider (className : Option String) (extra : List (String × String)) : Html :=
  Html.element "div"
    (("className", cn [ClassValue.str "h-5 w-px bg-slate-200 dark:bg-slate-700", cvOpt className])
      :: ("aria-hidden", "true") :: extra)
    []

/-- JS truthiness of an optional string prop: truthy exactly when supplied
and non-empty (the empty string is falsy in JavaScript). -/
def strTruthy : Option String → Bool
  | none => false
  | some s => s ≠ ""

/-- `HeaderCompanyLogo`: the source tests `if (src)` — JS truthiness, so an
absent or empty `src` yields the generic building placeholder and a
non-empty `src` yields the logo image; `alt` defaults to `Company logo`. -/
def HeaderCompanyLogo (src : Option String) (alt : Option String)
    (className : Option String) (extra : List (String × String)) : Html :=
  let altVal := alt.getD "Company logo"
  let placeholder :=
    Html.element "div"
      [("className",
          cn [ClassValue.str "flex h-7 w-7 items-center justify-center rounded bg-slate-100 dark:bg-slate-800",
              cvOpt className])]
      [Html.element "svg"
        [("xmlns", "http://www.w3.org/2000/svg"), ("viewBox", "0 0 24 24"),
         ("fill", "none"), ("stroke", "currentColor"), ("strokeWidth", "1.5"),
         ("strokeLinecap", "round"), ("strokeLinejoin", "round"),
         ("className", "h-4 w-4 text-slate-500 dark:text-slate-400"),
         ("aria-label", altVal)]
        [Html.element "path" [("d", "M3 21h18M3 7l9-4 9 4M4 7v14M20 7v14M9 21V9h6v12")] []]]
  match src with
  | some s =>
      if s = "" then placeholder
      else
        Html.element "img"
          (("src", s) :: ("alt", altVal) ::
            ("className", cn [ClassValue.str "h-7 w-auto rounded object-contain", cvOpt className])
            :: extra)
          []
  | none => placeholder

/-- `HeaderUserAvatar`: user avatar button with dropdown menu; `name`
defaults to `User`; the source tests `src ? … : …` — JS truthiness, so a
non-empty `src` renders the profile image and an absent or empty `src`
renders the initials-fallback circle showing `getInitials name`. -/
def HeaderUserAvatar (src : Option String) (name : Option String)
    (className : Option String) : Html :=
  let nameVal := name.getD "User"
  let initials := getInitials nameVal
  let fallbackCircle :=
    Html.element "div"
      [("className",
          "flex h-8 w-8 items-center justify-center rounded-full bg-indigo-600 text-white")]
      [Html.element "span" [("className", "text-xs font-semibold")]
        [Html.text initials]]
  Html.element "DropdownMenu" []
    [Html.element "DropdownMenuTrigger" [("asChild", "true")]
      [Html.element "button"
        [("type", "button"),
         ("className",
            cn [ClassValue.str "rounded-full outline-none ring-offset-2 focus-visible:ring-2 focus-visible:ring-slate-400",
                cvOpt className]),
         ("aria-label", "User menu for " ++ nameVal)]
        [match src with
         | some s =>
             if s = "" then fallbackCircle
             else
               Html.element "img"
                 [("src", s), ("alt", nameVal),
                  ("className", "h-8 w-8 rounded-full object-cover")] []
         | none => fallbackCircle]],
     Html.element "DropdownMenuContent" [("align", "end")]
      [Html.element "DropdownMenuItem" [] [Html.text "Profile"],
       Html.element "DropdownMenuItem" [] [Html.text "Settings"],
       Html.element "DropdownMenuItem" [] [Html.text "Sign out"]]]

/-!  Sidebar, layout, routing and pages. -/

/-- A sidebar navigation item: label, destination route, and the icon
component placed before the label (identified here by its tag name). -/
structure NavItem where
  label : String
  toRoute : String
  iconTag : String
deriving Repr

/-- `navItems` of `app-sidebar` (heroicons variant): a single `Home` entry
routed to `/` with `HomeIcon`. -/
def navItems : List NavItem := [⟨"Home", "/", "HomeIcon"⟩]

/-- `navItems` of the lucide `app-sidebar` variant shown in the skill-sync
skill: the same single `Home` entry with the lucide `House` icon. -/
def navItemsLucide : List NavItem := [⟨"Home", "/", "House"⟩]

/-- One sidebar menu entry, as rendered inside `SidebarMenu`: a
`SidebarMenuItem` keyed by the destination, holding a `SidebarMenuButton`
whose child is a router `Link` to `item.toRoute` with the icon and the label. -/
def sidebarMenuEntry (item : NavItem) : Html :=
  Html.element "SidebarMenuItem" [("key", item.toRoute)]
    [Html.element "SidebarMenuButton"
      [("asChild", "true"), ("tooltip", item.label),
       ("className", "group-data-[collapsible=icon]:mx-auto")]
      [Html.element "Link" [("to", item.toRoute)]
        [Html.element item.iconTag [("className", "size-4")] [],
         Html.element "span" [] [Html.text item.label]]]]

/-- The sidebar body shared by both `AppSidebar` variants, parameterized by
the sidebar state string from `useSidebar`, the three icon tag names and the
nav item list — exactly the structure both sources write out. -/
def sidebarBody (state chevronLeftTag chevronRightTag : String)
    (items : List NavItem) : Html :=
  let isExpanded := state = "expanded"
  Html.element "Sidebar"
    [("collapsible", "icon"),
     ("className", "absolute h-(--content-height) max-h-(--content-height)")]
    [Html.element "SidebarHeader"
      [("className",
          cn [ClassValue.str "flex",
              ClassValue.str (if isExpanded then "justify-end" else "justify-center")])]
      [Html.element "SidebarTrigger" []
        [if isExpanded then Html.element chevronLeftTag [("className", "size-4")] []
         else Html.element chevronRightTag [("className", "size-4")] []]],
     Html.element "SidebarContent" []
      [Html.element "SidebarMenu" [] (items.map sidebarMenuEntry)],
     Html.element "SidebarRail" [] []]

/-- `AppSidebar` (heroicons variant, `src/components/layout/app-sidebar`):
uses `ChevronDoubleLeftIcon`/`ChevronDoubleRightIcon` in the trigger and
`HomeIcon` from `navItems`. -/
def AppSidebar (state : String) : Html :=
  sidebarBody state "ChevronDoubleLeftIcon" "ChevronDoubleRightIcon" navItems

/-- `AppSidebar` (lucide variant from the skill-sync skill): uses
`ChevronsLeft`/`ChevronsRight` in the trigger and `House` from its nav
items. -/
def AppSidebarLucide (state : String) : Html :=
  sidebarBody state "ChevronsLeft" "ChevronsRight" navItemsLucide

/-- `AppLayout` (`src/components/layout/app-layout.tsx`): header with a
brand section and a user-avatar section, then a `SidebarProvider` holding
the `AppSidebar` and a `main` region with the router `Outlet`.  The sidebar
state provided by `SidebarProvider` is the parameter. -/
def AppLayout (state : String) : Html :=
  Html.element "div" [("className", "flex h-screen flex-col")]
    [Header
      [HeaderSection [HeaderBrand none none []] none [],
       HeaderSection [HeaderUserAvatar none none none] none []]
      none [],
     Html.element "SidebarProvider"
      [("className", "relative min-h-0 flex-1"), ("style", "--content-height: 100%")]
      [AppSidebar state,
       Html.element "main" [("className", "flex-1 overflow-auto")]
        [Html.element "Outlet" [] []]]]

/-- `RootLayout` (root route file): wraps `AppLayout` in `Suspense`. -/
def RootLayout (state : String) : Html :=
  Html.element "Suspense" [] [AppLayout state]

/-- The `component` option of the root route: `createRootRouteWithContext(...)({
component: RootLayout })`, so the root route renders `RootLayout`. -/
def rootRouteComponent : String → Html := RootLayout

/-- The static `stats` array of `DashboardPage`: label, value, description. -/
def dashboardStats : List (String × String × String) :=
  [("Total Scans", "128", "All-time assessments"),
   ("Critical Findings", "14", "Requires immediate action"),
   ("Providers Connected", "5", "AWS, Azure, GCP, K8s, GitHub"),
   ("Last Scan", "2h ago", "Most recent assessment")]

/-- One dashboard stat card, as `DashboardPage` maps a stat to markup. -/
def statCard (s : String × String × String) : Html :=
  Html.element "div"
    [("key", s.1),
     ("className", "bg-card text-card-foreground rounded-xl border p-5 shadow-sm")]
    [Html.element "p" [("className", "text-muted-foreground text-sm font-medium")]
      [Html.text s.1],
     Html.element "p" [("className", "mt-1 text-3xl font-bold")] [Html.text s.2.1],
     Html.element "p" [("className", "text-muted-foreground mt-1 text-xs")] [Html.text s.2.2]]

/-- `DashboardPage`: takes no props; heading, the grid of the four static
stat cards, and the static `Recent Findings` card. -/
def DashboardPage : Html :=
  Html.element "div" [("className", "flex flex-col gap-6 p-6")]
    [Html.element "div" []
      [Html.element "h1" [("className", "text-2xl font-bold")] [Html.text "Dashboard"],
       Html.element "p" [("className", "text-muted-foreground text-sm")]
        [Html.text "Overview of your cloud security posture"]],
     Html.element "div"
      [("className", "grid grid-cols-1 gap-4 sm:grid-cols-2 lg:grid-cols-4")]
      (dashboardStats.map statCard),
     Html.element "div"
      [("className", "bg-card text-card-foreground rounded-xl border p-5 shadow-sm")]
      [Html.element "h2" [("className", "mb-4 text-base font-semibold")]
        [Html.text "Recent Findings"],
       Html.element "p" [("className", "text-muted-foreground text-sm")]
        [Html.text "No recent findings to display."]]]

/-!  The `App` counter component (Vite starter `src/App.tsx`). -/

/-- `useState(0)`: the initial value of the counter. -/
def countInit : Int := 0

/-- The updater applied by the click handler: `setCount((count) => count + 1)`. -/
def clickUpdater (count : Int) : Int := count + 1

/-- The counter value after `n` button clicks starting from `countInit`. -/
def countAfter : Nat → Int
  | 0 => countInit
  | n + 1 => clickUpdater (countAfter n)

/-- `App` rendered at a given `count` value. -/
def App (count : Int) : Html :=
  Html.element "main"
    [("className", "min-h-screen flex flex-col items-center justify-center gap-8 px-4")]
    [Html.element "header" [("className", "flex items-center gap-6")]
      [Html.element "a" [("href", "https://vite.dev"), ("target", "_blank"), ("rel", "noreferrer")]
        [Html.element "img" [("src", "/vite.svg"), ("className", "h-16 w-16"), ("alt", "Vite logo")] []],
       Html.element "a" [("href", "https://react.dev"), ("target", "_blank"), ("rel", "noreferrer")]
        [Html.element "img" [("src", "./assets/react.svg"), ("className", "h-16 w-16"), ("alt", "React logo")] []]],
     Html.element "h1" [("className", "text-4xl font-bold")] [Html.text "Vite + React"],
     Html.element "section"
      [("className", "flex flex-col items-center gap-4 rounded-xl border border-slate-700 bg-slate-800 px-10 py-8")]
      [Html.element "Button" [("variant", "primary"), ("onClick", "setCount((count) => count + 1)")]
        [Html.text ("count is " ++ toString count)],
       Html.element "p" [("className", "text-sm text-slate-400")]
        [Html.text "Edit ",
         Html.element "code" [("className", "rounded bg-slate-700 px-1.5 py-0.5 text-xs")]
          [Html.text "src/App.tsx"],
         Html.text " and save to test HMR"]],
     Html.element "footer" [("className", "text-sm text-slate-400")]
      [Html.text "Click on the Vite and React logos to learn more"]]

/-!  Analysis helpers: accessors over rendered markup. -/

/-- The value of an attribute on a node. -/
def attrOf (h : Html) (k : String) : Option String :=
  match h with
  | .element _ attrs _ => (attrs.find? (fun p => p.1 == k)).map (fun p => p.2)
  | .text _ => none

/-- The children of a node. -/
def childrenOf : Html → List Html
  | .element _ _ cs => cs
  | .text _ => []

/-- The `i`-th child of a node. -/
def childAt (h : Html) (i : Nat) : Option Html := (childrenOf h)[i]?

/-- A node is markup (an element/component node, not bare text). -/
def isMarkup : Html → Bool
  | .element _ _ _ => true
  | .text _ => false

/-- The trigger button of a rendered `HeaderUserAvatar`. -/
def avatarButton (h : Html) : Option Html :=
  match h with
  | .element "DropdownMenu" _ (Html.element "DropdownMenuTrigger" _ [b] :: _) => some b
  | _ => none

/-- What the avatar button displays (profile image or fallback circle). -/
def avatarVisual (h : Html) : Option Html :=
  match avatarButton h with
  | some (Html.element "button" _ [c]) => some c
  | _ => none

/-- The initials text inside the fallback circle, when the fallback is shown. -/
def avatarFallbackInitials (h : Html) : Option String :=
  match avatarVisual h with
  | some (Html.element "div" _ [Html.element "span" _ [Html.text s]]) => some s
  | _ => none

/-- Whether the avatar shows a profile `img`. -/
def avatarShowsImage (h : Html) : Bool :=
  match avatarVisual h with
  | some (Html.element "img" _ _) => true
  | _ => false

/-- The `aria-label` of the trigger button of the avatar. -/
def avatarAriaLabel (h : Html) : Option String :=
  (avatarButton h).bind (fun b => attrOf b "aria-label")

/-- The (label, value) pairs of the stat cards in the grid of the dashboard. -/
def statCardsOf (h : Html) : List (String × String) :=
  match h with
  | .element "div" _ [_, Html.element "div" _ cards, _] =>
      cards.filterMap (fun c =>
        match c with
        | Html.element "div" _
            [Html.element "p" _ [Html.text lab], Html.element "p" _ [Html.text v], _] =>
            some (lab, v)
        | _ => none)
  | _ => []

/-- The menu entries of a rendered sidebar. -/
def sidebarMenuEntries (h : Html) : List Html :=
  match h with
  | .element "Sidebar" _
      [_, Html.element "SidebarContent" _ [Html.element "SidebarMenu" _ entries], _] =>
      entries
  | _ => []

/-- The destination and label of the `Link` inside a sidebar menu entry. -/
def entryLink (e : Html) : Option (String × String) :=
  match e with
  | Html.element "SidebarMenuItem" _
      [Html.element "SidebarMenuButton" _
        [Html.element "Link" [("to", dest)] [_, Html.element "span" _ [Html.text lab]]]] =>
      some (dest, lab)
  | _ => none

/-- The icon tag shown inside the trigger of the sidebar. -/
def triggerIconTag (h : Html) : Option String :=
  match h with
  | .element "Sidebar" _
      (Html.element "SidebarHeader" _ [Html.element "SidebarTrigger" _ [Html.element t _ _]] :: _) =>
      some t
  | _ => none

/-- Renames the icon components used by either sidebar variant to the
anonymous tag `Icon`. -/
def renameIcon (t : String) : String :=
  if t = "HomeIcon" ∨ t = "ChevronDoubleLeftIcon" ∨ t = "ChevronDoubleRightIcon" ∨
      t = "House" ∨ t = "ChevronsLeft" ∨ t = "ChevronsRight" then "Icon" else t

/-- Erases which concrete icon component occupies each icon position, over a
forest of markup nodes. -/
def eraseForest : List Html → List Html
  | [] => []
  | Html.text s :: rest => Html.text s :: eraseForest rest
  | Html.element t a cs :: rest =>
      Html.element (renameIcon t) a (eraseForest cs) :: eraseForest rest

/-- Erases which concrete icon component occupies each icon position. -/
def eraseIcons (h : Html) : Html :=
  match h with
  | .text s => .text s
  | .element t a cs => Html.element (renameIcon t) a (eraseForest cs)

/-- The text displayed on the button of the counter. -/
def displayedCount (h : Html) : Option String :=
  match h with
  | .element "main" _
      [_, _, Html.element "section" _ (Html.element "Button" _ [Html.text lab] :: _), _] =>
      some lab
  | _ => none

/-!  Theorems. -/

@[simp] theorem clsxToks_str (s : String) :
    (ClassValue.str s).clsxToks = if s = "" then [] else [s] := by
  rw [ClassValue.clsxToks]

@[simp] theorem clsxToks_num (n : Int) :
    (ClassValue.num n).clsxToks = if n = 0 then [] else [toString n] := by
  rw [ClassValue.clsxToks]

@[simp] theorem clsxToks_boolv (b : Bool) : (ClassValue.boolv b).clsxToks = [] := by
  rw [ClassValue.clsxToks]

@[simp] theorem clsxToks_null : ClassValue.null.clsxToks = [] := by
  rw [ClassValue.clsxToks]

@[simp] theorem clsxToks_arr_nil : (ClassValue.arr []).clsxToks = [] := by
  rw [ClassValue.clsxToks]

@[simp] theorem clsxToks_arr_cons (v : ClassValue) (vs : List ClassValue) :
    (ClassValue.arr (v :: vs)).clsxToks = v.clsxToks ++ (ClassValue.arr vs).clsxToks := by
  rw [ClassValue.clsxToks]

/-!  Helper lemmas. -/

theorem clsxToksList_append (us vs : List ClassValue) :
    clsxToksList (us ++ vs) = clsxToksList us ++ clsxToksList vs := by
  simp [clsxToksList]

theorem clsxToksList_cons (v : ClassValue) (vs : List ClassValue) :
    clsxToksList (v :: vs) = v.clsxToks ++ clsxToksList vs := by
  simp [clsxToksList]

theorem falsy_clsxToks (v : ClassValue) (h : v.Falsy) : v.clsxToks = [] := by
  cases v <;> simp_all [ClassValue.Falsy]

theorem arr_clsxToks (xs : List ClassValue) :
    (ClassValue.arr xs).clsxToks = clsxToksList xs := by
  induction xs with
  | nil => simp [clsxToksList]
  | cons v vs ih => simp [clsxToksList_cons, ih]

theorem any_drop_mid (l1 l2 l3 : List String) (a b : String) (p : String → Bool)
    (hab : p a = true → p b = true) :
    (l1 ++ a :: l2 ++ b :: l3).any p = (l1 ++ (l2 ++ b :: l3)).any p := by
  by_cases hpa : p a = true
  · have hpb := hab hpa
    simp [List.any_append, hpa, hpb]
  · simp only [Bool.not_eq_true] at hpa
    simp [List.any_append, hpa]

theorem conflictsLater_drop_mid (x : String) (l1 l2 l3 : List String) (a b g : String)
    (ha : twGroup a = some g) (hb : twGroup b = some g) :
    conflictsLater x (l1 ++ a :: l2 ++ b :: l3) = conflictsLater x (l1 ++ (l2 ++ b :: l3)) := by
  unfold conflictsLater
  cases hg : twGroup x with
  | none => rfl
  | some gx =>
      exact any_drop_mid l1 l2 l3 a b _ (by intro hpa; simp_all)

theorem twMergeList_override_mid (l1 l2 l3 : List String) (a b g : String)
    (ha : twGroup a = some g) (hb : twGroup b = some g) :
    twMergeList (l1 ++ a :: l2 ++ b :: l3) = twMergeList (l1 ++ (l2 ++ b :: l3)) := by
  induction l1 with
  | nil =>
      simp only [List.nil_append]
      have hc : conflictsLater a (l2 ++ b :: l3) = true := by
        simp [conflictsLater, ha, List.any_append, hb]
      simp only [twMergeList, hc]
      simp [hc]
  | cons x l1 ih =>
      simp only [List.cons_append]
      simp only [twMergeList]
      rw [conflictsLater_drop_mid x l1 l2 l3 a b g ha hb, ih]

/-- C1: `cn`, applied to any sequence of class values, returns exactly
`twMerge (clsx values)`; `clsx` drops falsy arguments, flattens arrays and
space-joins the surviving class names; Tailwind conflict resolution lets a
later conflicting class override an earlier one. -/
theorem cn_is_twMerge_clsx :
    (∀ values : List ClassValue, cn values = twMerge (clsx values)) ∧
    (∀ us ws (v : ClassValue), v.Falsy → clsx (us ++ v :: ws) = clsx (us ++ ws)) ∧
    (∀ us xs ws, clsx (us ++ ClassValue.arr xs :: ws) = clsx (us ++ xs ++ ws)) ∧
    (∀ l1 l2 l3 a b g, twGroup a = some g → twGroup b = some g →
      twMergeList (l1 ++ a :: l2 ++ b :: l3) = twMergeList (l1 ++ (l2 ++ b :: l3))) := by
  refine ⟨fun values => rfl, ?_, ?_, ?_⟩
  · intro us ws v hv
    simp [clsx, clsxToksList_append, clsxToksList_cons, falsy_clsxToks v hv]
  · intro us xs ws
    simp [clsx, clsxToksList_append, clsxToksList_cons, arr_clsxToks]
  · intro l1 l2 l3 a b g ha hb
    exact twMergeList_override_mid l1 l2 l3 a b g ha hb

/-- Witness for C1 at concrete inputs. -/
theorem cn_is_twMerge_clsx_witness :
    cn [ClassValue.str "p-4", ClassValue.str "p-6"]
      = twMerge (clsx [ClassValue.str "p-4", ClassValue.str "p-6"]) ∧
    ClassValue.Falsy ClassValue.null ∧
    clsx [ClassValue.str "flex", ClassValue.null, ClassValue.str "gap-3"]
      = clsx [ClassValue.str "flex", ClassValue.str "gap-3"] ∧
    clsx [ClassValue.str "a", ClassValue.arr [ClassValue.str "b"], ClassValue.str "c"]
      = clsx [ClassValue.str "a", ClassValue.str "b", ClassValue.str "c"] ∧
    twGroup "p-4" = some "padding" ∧ twGroup "p-6" = some "padding" ∧
    twMergeList ["flex", "p-4", "p-6"] = twMergeList ["flex", "p-6"] :=
  ⟨cn_is_twMerge_clsx.1 [ClassValue.str "p-4", ClassValue.str "p-6"], trivial,
   cn_is_twMerge_clsx.2.1 [ClassValue.str "flex"] [ClassValue.str "gap-3"] ClassValue.null trivial,
   cn_is_twMerge_clsx.2.2.1 [ClassValue.str "a"] [ClassValue.str "b"] [ClassValue.str "c"],
   by decide, by decide,
   cn_is_twMerge_clsx.2.2.2 ["flex"] [] [] "p-4" "p-6" "padding" (by decide) (by decide)⟩

/-- C2: `getInitials` (imported from the utils module) is a total function
whose value is exactly the initials string the `HeaderUserAvatar` fallback
avatar circle renders. -/
theorem getInitials_renders_in_fallback (name : String) (className : Option String) :
    avatarFallbackInitials (HeaderUserAvatar none (some name) className)
      = some (getInitials name) := rfl

/-- C3: `DashboardPage` takes no props (it is a closed term) and its grid
holds exactly the four stat cards of the static `stats` array, in order. -/
theorem dashboard_stats_static :
    statCardsOf DashboardPage = dashboardStats.map (fun s => (s.1, s.2.1)) ∧
    dashboardStats.map (fun s => (s.1, s.2.1)) =
      [("Total Scans", "128"), ("Critical Findings", "14"),
       ("Providers Connected", "5"), ("Last Scan", "2h ago")] :=
  ⟨rfl, rfl⟩

/-- C4: the component of the root route renders `AppLayout` (under `Suspense`),
and `AppLayout` renders, in order, a `Header` whose first section holds the
`HeaderBrand` and whose second holds the `HeaderUserAvatar`, followed by a
`SidebarProvider` containing the `AppSidebar` and a `main` region holding
the router `Outlet`. -/
theorem layout_layering (s : String) :
    rootRouteComponent s = Html.element "Suspense" [] [AppLayout s] ∧
    childAt (AppLayout s) 0 = some (Header
      [HeaderSection [HeaderBrand none none []] none [],
       HeaderSection [HeaderUserAvatar none none none] none []] none []) ∧
    childAt (AppLayout s) 1 = some (Html.element "SidebarProvider"
      [("className", "relative min-h-0 flex-1"), ("style", "--content-height: 100%")]
      [AppSidebar s,
       Html.element "main" [("className", "flex-1 overflow-auto")]
        [Html.element "Outlet" [] []]]) ∧
    childAt (AppLayout s) 2 = none :=
  ⟨rfl, rfl, rfl, rfl⟩

/-- C5: every sidebar menu entry is a `Link` to the `to` field of the
corresponding `navItems` element, and with the `navItems` of the code the
sidebar has exactly one entry, labeled `Home`, navigating to `/`. -/
theorem sidebar_single_home_link (s : String) :
    sidebarMenuEntries (AppSidebar s) = navItems.map sidebarMenuEntry ∧
    (navItems.map sidebarMenuEntry).filterMap entryLink
      = navItems.map (fun i => (i.toRoute, i.label)) ∧
    navItems.map (fun i => (i.toRoute, i.label)) = [("/", "Home")] :=
  ⟨rfl, rfl, rfl⟩

/-- C6: the components of the repository are deterministic functions of their
inputs: rendering twice with equal props (and equal sidebar state) yields
identical output. -/
theorem components_deterministic :
    (∀ p q : List Html × Option String × List (String × String), p = q →
        Header p.1 p.2.1 p.2.2 = Header q.1 q.2.1 q.2.2) ∧
    (∀ p q : List Html × Option String × List (String × String), p = q →
        HeaderSection p.1 p.2.1 p.2.2 = HeaderSection q.1 q.2.1 q.2.2) ∧
    (∀ p q : Option (List Html) × Option String × List (String × String), p = q →
        HeaderBrand p.1 p.2.1 p.2.2 = HeaderBrand q.1 q.2.1 q.2.2) ∧
    (∀ p q : Option String × List (String × String), p = q →
        HeaderDivider p.1 p.2 = HeaderDivider q.1 q.2) ∧
    (∀ p q : Option String × Option String × Option String × List (String × String), p = q →
        HeaderCompanyLogo p.1 p.2.1 p.2.2.1 p.2.2.2
          = HeaderCompanyLogo q.1 q.2.1 q.2.2.1 q.2.2.2) ∧
    DashboardPage = DashboardPage ∧
    (∀ s t : String, s = t → AppSidebar s = AppSidebar t) := by
  refine ⟨?_, ?_, ?_, ?_, ?_, rfl, ?_⟩ <;> intro p q h <;> subst h <;> rfl

/-- Witness for C6 at concrete props. -/
theorem components_deterministic_witness :
    Header [] none [] = Header [] none [] ∧
    HeaderSection [] none [] = HeaderSection [] none [] ∧
    HeaderBrand none none [] = HeaderBrand none none [] ∧
    HeaderDivider none [] = HeaderDivider none [] ∧
    HeaderCompanyLogo none none none [] = HeaderCompanyLogo none none none [] ∧
    AppSidebar "expanded" = AppSidebar "expanded" :=
  ⟨components_deterministic.1 ([], none, []) ([], none, []) rfl,
   components_deterministic.2.1 ([], none, []) ([], none, []) rfl,
   components_deterministic.2.2.1 (none, none, []) (none, none, []) rfl,
   components_deterministic.2.2.2.1 (none, []) (none, []) rfl,
   components_deterministic.2.2.2.2.1 (none, none, none, []) (none, none, none, []) rfl,
   components_deterministic.2.2.2.2.2.2 "expanded" "expanded" rfl⟩

/-- C7: no component of the repository has an error branch: every render
function completes on every input and returns markup. -/
theorem components_render_total :
    (∀ c cl e, isMarkup (Header c cl e) = true) ∧
    (∀ c cl e, isMarkup (HeaderSection c cl e) = true) ∧
    (∀ c cl e, isMarkup (HeaderBrand c cl e) = true) ∧
    (∀ cl e, isMarkup (HeaderDivider cl e) = true) ∧
    (∀ src alt cl e, isMarkup (HeaderCompanyLogo src alt cl e) = true) ∧
    (∀ src name cl, isMarkup (HeaderUserAvatar src name cl) = true) ∧
    isMarkup DashboardPage = true ∧
    (∀ s, isMarkup (AppSidebar s) = true) ∧
    (∀ s, isMarkup (AppLayout s) = true) ∧
    (∀ n : Int, isMarkup (App n) = true) := by
  refine ⟨fun _ _ _ => rfl, fun _ _ _ => rfl, fun _ _ _ => rfl, fun _ _ => rfl, ?_,
    fun _ _ _ => rfl, rfl, fun _ => rfl, fun _ => rfl, fun _ => rfl⟩
  intro src alt cl e
  cases src with
  | none => rfl
  | some s =>
      by_cases h : s = ""
      · subst h
        rfl
      · simp only [HeaderCompanyLogo]
        rw [if_neg h]
        rfl

/-- Counterexample to C8 as stated: the empty string supplied as `src` is a
present prop, yet the avatar renders the initials fallback, not the profile
image, because the source tests JS truthiness of `src`. -/
theorem avatar_image_iff_src_counterexample :
    (some "" : Option String).isSome = true ∧
    avatarShowsImage (HeaderUserAvatar (some "") none none) = false ∧
    avatarFallbackInitials (HeaderUserAvatar (some "") none none)
      = some (getInitials "User") :=
  ⟨rfl, rfl, rfl⟩

/-- C8 (amended): `HeaderUserAvatar` shows the profile image exactly when a
non-empty `src` is supplied (JS truthiness) and shows the initials fallback
when `src` is absent or empty; with `name` omitted it defaults to `User`, so
the label of the trigger is `User menu for User` and the fallback initials
come from `User`. -/
theorem avatar_image_iff_truthy_src :
    (∀ src name cl, avatarShowsImage (HeaderUserAvatar src name cl) = strTruthy src) ∧
    (∀ name cl, avatarFallbackInitials (HeaderUserAvatar none name cl)
        = some (getInitials (name.getD "User"))) ∧
    (∀ name cl, avatarFallbackInitials (HeaderUserAvatar (some "") name cl)
        = some (getInitials (name.getD "User"))) ∧
    (∀ src cl, avatarAriaLabel (HeaderUserAvatar src none cl)
        = some "User menu for User") ∧
    avatarFallbackInitials (HeaderUserAvatar none none none) = some (getInitials "User") ∧
    getInitials "User" = "U" := by
  refine ⟨?_, fun name cl => rfl, fun name cl => rfl, ?_, rfl, by decide⟩
  · intro src name cl
    cases src with
    | none => rfl
    | some s =>
        by_cases h : s = ""
        · subst h
          rfl
        · rw [show strTruthy (some s) = true from by simp [strTruthy, h]]
          simp only [HeaderUserAvatar]
          rw [if_neg h]
          rfl
  · intro src cl
    cases src with
    | none => rfl
    | some s =>
        by_cases h : s = ""
        · subst h
          rfl
        · simp only [HeaderUserAvatar]
          rw [if_neg h]
          rfl

/-- C9: the heroicons and lucide `AppSidebar` variants render, for every
sidebar state, the same structure up to which icon component sits at each
icon position, with matching expanded/collapsed chevron choices. -/
theorem sidebars_equal_up_to_icons (s : String) :
    eraseIcons (AppSidebar s) = eraseIcons (AppSidebarLucide s) ∧
    triggerIconTag (AppSidebar s)
      = some (if s = "expanded" then "ChevronDoubleLeftIcon" else "ChevronDoubleRightIcon") ∧
    triggerIconTag (AppSidebarLucide s)
      = some (if s = "expanded" then "ChevronsLeft" else "ChevronsRight") := by
  rcases eq_or_ne s "expanded" with h | h
  · subst h
    refine ⟨?_, rfl, rfl⟩
    simp [AppSidebar, AppSidebarLucide, sidebarBody, eraseIcons, eraseForest,
      renameIcon, navItems, navItemsLucide, sidebarMenuEntry]
  · have h2 : (s = "expanded") = False := by simp [h]
    refine ⟨?_, ?_, ?_⟩ <;>
      simp [AppSidebar, AppSidebarLucide, sidebarBody, eraseIcons, eraseForest,
        renameIcon, navItems, navItemsLucide, sidebarMenuEntry, triggerIconTag, h]

/-- C10: in the `App` counter, the count starts at 0 and each click applies
`count + 1`, so after `n` clicks the displayed count is `n` and is never
negative. -/
theorem counter_counts_clicks (n : Nat) :
    countAfter n = (n : Int) ∧ 0 ≤ countAfter n ∧
    displayedCount (App (countAfter n)) = some ("count is " ++ toString (countAfter n)) ∧
    countInit = 0 ∧ (∀ c : Int, clickUpdater c = c + 1) := by
  have h : countAfter n = (n : Int) := by
    induction n with
    | zero => rfl
    | succ m ih => simp [countAfter, clickUpdater, ih]
  exact ⟨h, by rw [h]; exact Int.natCast_nonneg n, rfl, rfl, fun c => rfl⟩
